import Mathlib

/-!
# Visitor entry front end (`src/App.js`)

A shallow embedding of the single React component `App`: its five state
cells, its five handlers and the promise callbacks they register.

* Every `setX(e)` of a handler or callback is a field update of `State`;
  the handlers use no functional updates, so the updates of one callback
  apply in program order.
* An `axios` call is split in two: the handler returns the request it
  issues together with the continuation it registers (`Kont`), and
  `settle` runs that continuation's `.then` / `.catch` / `.finally`
  chain on the outcome.  A continuation carries the variables its closure
  captured (only `handleDelete` reads state inside a callback).
* `System` adds the set of calls in flight and a log of every request sent,
  so that interleavings and "no request was issued" can be stated.
-/

namespace VisitorEntry

/-! ## JavaScript values -/

/-- The scalar JavaScript values a record field or an id can hold.  Numbers
are the integers (ids and JSON integers): `num n` is the Number whose exact
value is `n`, so `n` is an integer that a double represents (every integer up
to 2^53 in absolute value, and beyond it those with 53 significant binary
digits); `NaN` and fractions do not occur. -/
inductive JsVal where
  | undefined
  | null
  | bool (b : Bool)
  | num (n : Int)
  | str (s : String)
  deriving DecidableEq, Repr

/-- JavaScript truthiness, as used by `if (editingId)`. -/
def JsVal.truthy : JsVal → Bool
  | .undefined => false
  | .null => false
  | .bool b => b
  | .num n => decide (n ≠ 0)
  | .str s => decide (s ≠ "")

/-! ### Number-to-string

The placeholders of the template literals of lines 56 and 96 convert a Number
with the language's Number-to-string: the decimal digits of the shortest decimal
that converts back to the same Number, written out in full up to 21 digits and
in exponent form beyond.  Up to 2^53 every integer is its own shortest decimal;
above it the Numbers are integers spaced `2^e` apart, and the shortest decimal
is the multiple of the highest power of ten within half a gap. -/

/-- Position of the leading binary digit of `a` (0 for `a < 2`); `fuel` bounds
the number of halvings. -/
def log2Fuel : Nat → Nat → Nat
  | 0, _ => 0
  | fuel + 1, a => if a < 2 then 0 else log2Fuel fuel (a / 2) + 1

/-- The Number nearest to the natural number `a ≥ 2^53` (53 significant binary
digits, ties to the even significand); `none` is `Infinity`. -/
def roundToDouble (a : Nat) : Option Nat :=
  let e := log2Fuel a a - 52
  let q := a / 2 ^ e
  let r := a % 2 ^ e
  let m := if 2 ^ (e - 1) < r ∨ (r = 2 ^ (e - 1) ∧ q % 2 = 1) then q + 1 else q
  if log2Fuel (m * 2 ^ e) (m * 2 ^ e) < 1024 then some (m * 2 ^ e) else none

/-- Whether the integer `v` converts to the Number `x ≥ 2^53`: `v` lies within
half a gap of `x` (the gap below a power of two is half the gap above), the
end points counting when the significand of `x` is even. -/
def roundsTo (x v : Nat) : Bool :=
  let e := log2Fuel x x - 52
  let m := x / 2 ^ e
  let up := 2 ^ e
  let down := if m = 2 ^ 52 then 2 ^ (e - 1) else 2 ^ e
  if m % 2 = 0 then decide (2 * x ≤ 2 * v + down ∧ 2 * v ≤ 2 * x + up)
  else decide (2 * x < 2 * v + down ∧ 2 * v < 2 * x + up)

/-- The multiple of `10^j` nearest to `x` among those that convert to `x`. -/
def candidateAt (x j : Nat) : Option Nat :=
  let below := x / 10 ^ j * 10 ^ j
  let above := below + 10 ^ j
  if roundsTo x below then
    if roundsTo x above ∧ above - x < x - below then some above else some below
  else if roundsTo x above then some above else none

/-- The integer with the fewest significant digits that converts to `x`, the
nearest to `x` among those: the first hit when the number of trailing zeros
`j` is tried from `fuel - 1` down to 0 (`j = 0` yields `x`). -/
def shortestFrom (x : Nat) : Nat → Nat
  | 0 => x
  | j + 1 =>
    match candidateAt x j with
    | some v => v
    | none => shortestFrom x j

/-- The decimal digits of `v` without its trailing zeros. -/
def significantDigits (v : Nat) : List Char :=
  ((Nat.toDigits 10 v).reverse.dropWhile (fun c => c == '0')).reverse

/-- Number-to-string of the positive integer `v` whose digits are to be
printed: plain decimal up to 21 digits, exponent form beyond. -/
def formatDigits (v : Nat) : String :=
  let n := (Nat.toDigits 10 v).length
  if n ≤ 21 then String.mk (Nat.toDigits 10 v)
  else
    match significantDigits v with
    | [] => "0"
    | [d] => String.mk [d] ++ "e+" ++ toString (n - 1)
    | d :: ds => String.mk (d :: '.' :: ds) ++ "e+" ++ toString (n - 1)

/-- Number-to-string of the Number nearest to the integer `n`, as a template
literal prints it. -/
def numberToString (n : Int) : String :=
  if n.natAbs ≤ 9007199254740992 then toString n
  else
    (if n < 0 then "-" else "") ++
      (match roundToDouble n.natAbs with
       | some x => formatDigits (shortestFrom x ((Nat.toDigits 10 x).length + 1))
       | none => "Infinity")

/-- String conversion of a template literal's placeholder. -/
def JsVal.toStr : JsVal → String
  | .undefined => "undefined"
  | .null => "null"
  | .bool true => "true"
  | .bool false => "false"
  | .num n => numberToString n
  | .str s => s

/-! ## Data model -/

/-- A record of the list: the seven properties the component reads. -/
structure Visitor where
  id : JsVal
  name : JsVal
  email : JsVal
  phone : JsVal
  purpose : JsVal
  checkInTime : JsVal
  checkOutTime : JsVal
  deriving DecidableEq, Repr

/-- The form's draft object `visitor`.  Every object literal the component
stores in it (lines 6-13, 59, 71, 82-89) has exactly these six keys in this
order, so a record with six fields represents it exactly. -/
structure Draft where
  name : JsVal
  email : JsVal
  phone : JsVal
  purpose : JsVal
  checkInTime : JsVal
  checkOutTime : JsVal
  deriving DecidableEq, Repr

/-- The `name` attributes of the six inputs that `handleChange` is bound to
(lines 132-173). -/
inductive FieldName where
  | name
  | email
  | phone
  | purpose
  | checkInTime
  | checkOutTime
  deriving DecidableEq, Repr

/-- The property key of an input name. -/
def FieldName.key : FieldName → String
  | .name => "name"
  | .email => "email"
  | .phone => "phone"
  | .purpose => "purpose"
  | .checkInTime => "checkInTime"
  | .checkOutTime => "checkOutTime"

/-- Property read `visitor[n]`. -/
def Draft.get (d : Draft) : FieldName → JsVal
  | .name => d.name
  | .email => d.email
  | .phone => d.phone
  | .purpose => d.purpose
  | .checkInTime => d.checkInTime
  | .checkOutTime => d.checkOutTime

/-- The object `{ ...d, [n]: x }`. -/
def Draft.set (d : Draft) (n : FieldName) (x : JsVal) : Draft :=
  match n with
  | .name => { d with name := x }
  | .email => { d with email := x }
  | .phone => { d with phone := x }
  | .purpose => { d with purpose := x }
  | .checkInTime => { d with checkInTime := x }
  | .checkOutTime => { d with checkOutTime := x }

/-- The own properties of a draft, in order: what a request body carries. -/
def Draft.entries (d : Draft) : List (String × JsVal) :=
  [("name", d.name), ("email", d.email), ("phone", d.phone), ("purpose", d.purpose),
   ("checkInTime", d.checkInTime), ("checkOutTime", d.checkOutTime)]

/-- The all-empty draft of lines 6-13, 59 and 71. -/
def emptyDraft : Draft :=
  { name := .str "", email := .str "", phone := .str "", purpose := .str "",
    checkInTime := .str "", checkOutTime := .str "" }

/-- The five `useState` cells (lines 5-16); `error` is `null` or a string. -/
structure State where
  visitors : List Visitor
  visitor : Draft
  editingId : JsVal
  error : Option String
  loading : Bool
  deriving DecidableEq, Repr

/-- The initial values of the `useState` cells. -/
def init : State :=
  { visitors := [], visitor := emptyDraft, editingId := .null, error := none, loading := false }

/-! ## Requests, continuations, outcomes -/

/-- Line 18. -/
def API_URL : String := "http://localhost:8083/api/visitors"

inductive Method where
  | GET
  | POST
  | PUT
  | DELETE
  deriving DecidableEq, Repr

/-- An `axios` request: verb, URL and (for POST and PUT) the body object. -/
structure Request where
  method : Method
  url : String
  body : Option (List (String × JsVal))
  deriving DecidableEq, Repr

/-- The callback chain registered on a request, with what its closure
captured: `fetched` is lines 30-42, `updated` lines 57-65, `created` lines
69-76, `deleted` lines 97-104 (it reads `visitors` and `id` of the call). -/
inductive Kont where
  | fetched
  | updated
  | created
  | deleted (visitors : List Visitor) (id : JsVal)
  deriving DecidableEq, Repr

/-- A request in flight. -/
structure Call where
  request : Request
  kont : Kont
  deriving DecidableEq, Repr

/-- The `response` of a rejected request: `status`, and `data?.message`
(`none` when `data` or `message` is missing). -/
structure ErrResponse where
  status : Nat
  message : Option String
  deriving DecidableEq, Repr

/-- The rejection value `err`; `response` is absent on a connectivity
failure. -/
structure AxiosError where
  response : Option ErrResponse
  deriving DecidableEq, Repr

/-- How a request ends: fulfilled with `res.data`, or rejected with `err`. -/
inductive Outcome where
  | ok (data : List Visitor)
  | fail (err : AxiosError)
  deriving DecidableEq, Repr

/-! ## The handlers -/

/-- The message of line 38. -/
def connectMsg : String :=
  "Could not connect to the server. Make sure the backend API is running on http://localhost:8083"

/-- Lines 36-38: `errorMsg`. -/
def errorMsg (err : AxiosError) : String :=
  match err.response with
  | some r =>
    if r.status ≠ 0 then
      "Server error (" ++ toString r.status ++ "): " ++
        (match r.message with
         | some m => if m ≠ "" then m else "Unknown error"
         | none => "Unknown error")
    else connectMsg
  | none => connectMsg

/-- Lines 25-29: the synchronous part of `fetchVisitors`. -/
def fetchVisitors (s : State) : State × List Call :=
  ({ s with loading := true, error := none },
   [{ request := { method := .GET, url := API_URL, body := none }, kont := .fetched }])

/-- Lines 46-48. -/
def handleChange (s : State) (n : FieldName) (x : JsVal) : State :=
  { s with visitor := s.visitor.set n x }

/-- Lines 51-56 and 66-68: the synchronous part of `handleSubmit`. -/
def handleSubmit (s : State) : State × List Call :=
  if s.editingId.truthy then
    ({ s with error := none },
     [{ request := { method := .PUT, url := API_URL ++ "/" ++ s.editingId.toStr,
                     body := some s.visitor.entries },
        kont := .updated }])
  else
    ({ s with error := none },
     [{ request := { method := .POST, url := API_URL, body := some s.visitor.entries },
        kont := .created }])

/-- Lines 81-91. -/
def handleEdit (s : State) (v : Visitor) : State :=
  { s with
    visitor := { name := v.name, email := v.email, phone := v.phone, purpose := v.purpose,
                 checkInTime := v.checkInTime, checkOutTime := v.checkOutTime },
    editingId := v.id }

/-- Lines 94-96: the synchronous part of `handleDelete`. -/
def handleDelete (s : State) (id : JsVal) : State × List Call :=
  (s, [{ request := { method := .DELETE, url := API_URL ++ "/" ++ id.toStr, body := none },
         kont := .deleted s.visitors id }])

/-- The callbacks: the state after the continuation ran on the outcome, and
the requests it issued. -/
def settle (s : State) : Kont → Outcome → State × List Call
  | .fetched, .ok data =>
    ({ s with visitors := data, error := none, loading := false }, [])
  | .fetched, .fail err =>
    ({ s with error := some (errorMsg err), visitors := [], loading := false }, [])
  | .updated, .ok _ =>
    let r := fetchVisitors s
    ({ r.1 with visitor := emptyDraft, editingId := .null }, r.2)
  | .updated, .fail _ =>
    ({ s with error := some "Failed to update visitor. Please try again." }, [])
  | .created, .ok _ =>
    let r := fetchVisitors s
    ({ r.1 with visitor := emptyDraft }, r.2)
  | .created, .fail _ =>
    ({ s with error := some "Failed to add visitor. Please try again." }, [])
  | .deleted visitors id, .ok _ =>
    ({ s with visitors := visitors.filter (fun v => decide (v.id ≠ id)), error := none }, [])
  | .deleted _ _, .fail _ =>
    ({ s with error := some "Failed to delete visitor. Please try again." }, [])

/-! ## The component with its calls in flight -/

/-- The component: its state, the calls in flight, and every request sent so
far (oldest first). -/
structure System where
  state : State
  pending : List Call
  sent : List Request
  deriving DecidableEq, Repr

/-- What can happen to the component. -/
inductive Event where
  | mount
  | change (n : FieldName) (x : JsVal)
  | submit
  | edit (v : Visitor)
  | delete (id : JsVal)
  | response (i : Nat) (o : Outcome)
  deriving DecidableEq, Repr

/-- Record the calls a handler issued. -/
def System.issue (pending : List Call) (sent : List Request) (r : State × List Call) : System :=
  { state := r.1, pending := pending ++ r.2, sent := sent ++ r.2.map Call.request }

/-- One event.  `response i o` settles the `i`-th call in flight with `o`
(and does nothing when there is no such call). -/
def step (σ : System) : Event → System
  | .mount => System.issue σ.pending σ.sent (fetchVisitors σ.state)
  | .change n x => { σ with state := handleChange σ.state n x }
  | .submit => System.issue σ.pending σ.sent (handleSubmit σ.state)
  | .edit v => { σ with state := handleEdit σ.state v }
  | .delete id => System.issue σ.pending σ.sent (handleDelete σ.state id)
  | .response i o =>
    match σ.pending.get? i with
    | some c => System.issue (σ.pending.eraseIdx i) σ.sent (settle σ.state c.kont o)
    | none => σ

/-- The component before it is mounted. -/
def start : System := { state := init, pending := [], sent := [] }

/-- Run a sequence of events. -/
def run (σ : System) (es : List Event) : System := es.foldl step σ

/-! ## Sample records -/

/-- The record of the specification's example: id 1, name "A". -/
def visitorA : Visitor :=
  { id := .num 1, name := .str "A", email := .str "a@example.org", phone := .str "555",
    purpose := .str "meeting", checkInTime := .str "", checkOutTime := .str "" }

/-- A record whose server-assigned id is the number 0. -/
def visitorZero : Visitor :=
  { id := .num 0, name := .str "Z", email := .str "z@example.org", phone := .str "555",
    purpose := .str "audit", checkInTime := .str "", checkOutTime := .str "" }

/-- A record whose server-assigned id is the empty string. -/
def visitorBlank : Visitor :=
  { id := .str "", name := .str "B", email := .str "b@example.org", phone := .str "556",
    purpose := .str "visit", checkInTime := .str "", checkOutTime := .str "" }

/-! ## Auxiliary facts -/

/-- Filtering out the id `i` from a list with distinct ids that holds `i`
removes one entry and keeps the rest in place. -/
theorem filter_id_ne_split (L : List Visitor) (i : JsVal)
    (hnd : (L.map Visitor.id).Nodup) (hi : i ∈ L.map Visitor.id) :
    ∃ l₁ v l₂, L = l₁ ++ v :: l₂ ∧ v.id = i ∧
      L.filter (fun w => decide (w.id ≠ i)) = l₁ ++ l₂ := by
  obtain ⟨v, hv, hvi⟩ := List.mem_map.mp hi
  obtain ⟨l₁, l₂, hL⟩ := List.append_of_mem hv
  refine ⟨l₁, v, l₂, hL, hvi, ?_⟩
  subst hL
  simp only [List.map_append, List.map_cons] at hnd
  have h₁ : ∀ w ∈ l₁, w.id ≠ i := by
    intro w hw hwi
    have hdisj := (List.nodup_append.mp hnd).2.2
    exact hdisj (List.mem_map.mpr ⟨w, hw, rfl⟩) (by simp [hwi, hvi])
  have h₂ : ∀ w ∈ l₂, w.id ≠ i := by
    intro w hw hwi
    have hcons := (List.nodup_append.mp hnd).2.1
    have := (List.nodup_cons.mp hcons).1
    exact this (by rw [hvi, ← hwi]; exact List.mem_map.mpr ⟨w, hw, rfl⟩)
  have f₁ : l₁.filter (fun w => decide (w.id ≠ i)) = l₁ :=
    List.filter_eq_self.mpr (fun w hw => by simpa using h₁ w hw)
  have f₂ : l₂.filter (fun w => decide (w.id ≠ i)) = l₂ :=
    List.filter_eq_self.mpr (fun w hw => by simpa using h₂ w hw)
  rw [List.filter_append, f₁, List.filter_cons, f₂]
  simp [hvi]

/-! ## Delete -/

/-- Up to 2^53 in absolute value an integer prints as its decimal digits. -/
theorem numberToString_of_safe (n : Int) (h : n.natAbs ≤ 9007199254740992) :
    numberToString n = toString n := by
  simp [numberToString, h]

/-- Number-to-string at some ids: plain decimal up to 2^53, the shortest decimal
that converts back beyond it, exponent form from 10^21 on. -/
theorem toStr_values :
    (JsVal.num 0).toStr = "0" ∧
    (JsVal.num 42).toStr = "42" ∧
    (JsVal.num (-7)).toStr = "-7" ∧
    (JsVal.num 9007199254740992).toStr = "9007199254740992" ∧
    (JsVal.num 9007199254740994).toStr = "9007199254740994" ∧
    (JsVal.num 1152921504606846976).toStr = "1152921504606847000" ∧
    (JsVal.num 18446744073709551616).toStr = "18446744073709552000" ∧
    (JsVal.num 123456789012345683968).toStr = "123456789012345680000" ∧
    (JsVal.num 1000000000000000000000).toStr = "1e+21" ∧
    (JsVal.num 1180591620717411303424).toStr = "1.1805916207174113e+21" ∧
    (JsVal.num (-10000000000000000905969664)).toStr = "-1e+25" ∧
    (JsVal.str "a1").toStr = "a1" ∧
    JsVal.null.toStr = "null" ∧
    JsVal.undefined.toStr = "undefined" ∧
    (JsVal.bool true).toStr = "true" := by
  refine ⟨?_, ?_, ?_, ?_, ?_, ?_, ?_, ?_, ?_, ?_, ?_, ?_, ?_, ?_, ?_⟩ <;> rfl

/-- C1: when the ids of the local list are pairwise distinct and `i` occurs among
them, `handleDelete i` issues exactly one request, `DELETE API_URL/i` (for a
numeric id up to 2^53 the decimal digits of the id, for a string id the string
itself), and its success callback issues none (so no GET); whatever state `s'`
the response finds (`s' = s` when nothing happened in between), the list becomes
the list of the call with the single entry of id `i` cut out, the other entries
in their original order, one entry shorter. -/
theorem handleDelete_removes_exactly_that_row (s s' : State) (i : JsVal) (data : List Visitor)
    (hnd : (s.visitors.map Visitor.id).Nodup) (hi : i ∈ s.visitors.map Visitor.id) :
    ∃ c : Call,
      handleDelete s i = (s, [c]) ∧
      c.request = { method := .DELETE, url := API_URL ++ "/" ++ i.toStr, body := none } ∧
      (∀ n : Int, i = .num n → n.natAbs ≤ 9007199254740992 →
        c.request.url = "http://localhost:8083/api/visitors/" ++ toString n) ∧
      (∀ t : String, i = .str t →
        c.request.url = "http://localhost:8083/api/visitors/" ++ t) ∧
      (settle s' c.kont (.ok data)).2 = [] ∧
      ∃ l₁ v l₂, s.visitors = l₁ ++ v :: l₂ ∧ v.id = i ∧
        (∀ w ∈ l₁ ++ l₂, w.id ≠ i) ∧
        (settle s' c.kont (.ok data)).1 = { s' with visitors := l₁ ++ l₂, error := none } ∧
        (settle s' c.kont (.ok data)).1.visitors.length + 1 = s.visitors.length := by
  obtain ⟨l₁, v, l₂, hL, hvi, hf⟩ := filter_id_ne_split s.visitors i hnd hi
  have hurl : ∀ t : String,
      API_URL ++ "/" ++ t = "http://localhost:8083/api/visitors/" ++ t := by
    intro t
    have h0 : API_URL ++ "/" = "http://localhost:8083/api/visitors/" := by decide
    rw [h0]
  refine ⟨_, rfl, rfl, ?_, ?_, rfl, l₁, v, l₂, hL, hvi, ?_, ?_, ?_⟩
  · intro n hn hsafe
    subst hn
    show API_URL ++ "/" ++ numberToString n = _
    rw [numberToString_of_safe n hsafe, hurl]
  · intro t ht
    subst ht
    exact hurl t
  · intro w hw
    rw [← hf] at hw
    simpa using (List.mem_filter.mp hw).2
  · simp only [settle, hf]
  · show (s.visitors.filter _).length + 1 = s.visitors.length
    rw [hf, hL]
    simp only [List.length_append, List.length_cons]
    omega

/-- C1 at the specification's example: the list holds the one record of id 1,
and deleting id 1 sends `DELETE .../visitors/1` and empties the list; the URLs
of the delete requests for the ids 2^60, 10^21 and "a1". -/
theorem handleDelete_removes_exactly_that_row_witness :
    (([visitorA].map Visitor.id).Nodup ∧ JsVal.num 1 ∈ [visitorA].map Visitor.id) ∧
    (∃ c : Call,
      handleDelete { init with visitors := [visitorA] } (.num 1)
        = ({ init with visitors := [visitorA] }, [c]) ∧
      c.request = { method := .DELETE, url := API_URL ++ "/" ++ (JsVal.num 1).toStr, body := none } ∧
      (∀ n : Int, JsVal.num 1 = .num n → n.natAbs ≤ 9007199254740992 →
        c.request.url = "http://localhost:8083/api/visitors/" ++ toString n) ∧
      (∀ t : String, JsVal.num 1 = .str t →
        c.request.url = "http://localhost:8083/api/visitors/" ++ t) ∧
      (settle { init with visitors := [visitorA] } c.kont (.ok [])).2 = [] ∧
      ∃ l₁ v l₂, [visitorA] = l₁ ++ v :: l₂ ∧ v.id = .num 1 ∧
        (∀ w ∈ l₁ ++ l₂, w.id ≠ .num 1) ∧
        (settle { init with visitors := [visitorA] } c.kont (.ok [])).1
          = { ({ init with visitors := [visitorA] } : State) with
              visitors := l₁ ++ l₂, error := none } ∧
        (settle { init with visitors := [visitorA] } c.kont (.ok [])).1.visitors.length + 1
          = [visitorA].length) ∧
    (handleDelete { init with visitors := [visitorA] } (.num 1)).2.map Call.request
      = [{ method := .DELETE, url := "http://localhost:8083/api/visitors/1", body := none }] ∧
    (settle { init with visitors := [visitorA] } (.deleted [visitorA] (.num 1)) (.ok [])).1.visitors
      = [] ∧
    (handleDelete init (.num 1152921504606846976)).2.map Call.request
      = [{ method := .DELETE, url := "http://localhost:8083/api/visitors/1152921504606847000",
           body := none }] ∧
    (handleDelete init (.num 1000000000000000000000)).2.map Call.request
      = [{ method := .DELETE, url := "http://localhost:8083/api/visitors/1e+21", body := none }] ∧
    (handleDelete init (.str "a1")).2.map Call.request
      = [{ method := .DELETE, url := "http://localhost:8083/api/visitors/a1", body := none }] :=
  ⟨⟨by decide, by decide⟩,
   handleDelete_removes_exactly_that_row { init with visitors := [visitorA] }
     { init with visitors := [visitorA] } (.num 1) [] (by decide) (by decide),
   rfl, rfl, rfl, rfl, rfl⟩


/-! ## Loading the list -/

/-- The text of a server-status failure starts with an `S`, the connectivity
text with a `C`. -/
theorem serverMsg_ne_connectMsg (n : Nat) (m : String) :
    "Server error (" ++ toString n ++ "): " ++ m ≠ connectMsg := by
  intro h
  have hd := congrArg String.data h
  simp [String.data_append, connectMsg] at hd

/-- No failure of the list fetch yields the empty text. -/
theorem errorMsg_ne_empty (err : AxiosError) : errorMsg err ≠ "" := by
  have hc : connectMsg ≠ "" := by decide
  have hs : ∀ (n : Nat) (m : String), "Server error (" ++ toString n ++ "): " ++ m ≠ "" := by
    intro n m h
    have hd := congrArg String.data h
    simp [String.data_append] at hd
  unfold errorMsg
  split
  · split
    · exact hs _ _
    · exact hc
  · exact hc

/-- C4: whatever the state before and whatever the rejection (with a response
of any status and message, or without one), `fetchVisitors` issues one GET and,
once it is rejected, the list is empty, the error is a string other than the
empty one, loading is false, and nothing further is requested. -/
theorem fetchVisitors_failure_clears_list (s : State) (err : AxiosError) :
    ∃ c : Call,
      (fetchVisitors s).2 = [c] ∧
      c.request = { method := .GET, url := API_URL, body := none } ∧
      (settle (fetchVisitors s).1 c.kont (.fail err)).1.visitors = [] ∧
      (∃ m : String, (settle (fetchVisitors s).1 c.kont (.fail err)).1.error = some m ∧ m ≠ "") ∧
      (settle (fetchVisitors s).1 c.kont (.fail err)).1.loading = false ∧
      (settle (fetchVisitors s).1 c.kont (.fail err)).2 = [] :=
  ⟨_, rfl, rfl, rfl, ⟨errorMsg err, rfl, errorMsg_ne_empty err⟩, rfl, rfl⟩

/-- C5: whatever the state before (its list and error included) and whatever
array `R` the GET is fulfilled with, `fetchVisitors` issues one GET and, once it
is fulfilled, the list is `R`, the error is null, loading is false, the draft
and the edit target are those of the state before, and nothing further is
requested. -/
theorem fetchVisitors_success_replaces_list (s : State) (R : List Visitor) :
    ∃ c : Call,
      (fetchVisitors s).2 = [c] ∧
      c.request = { method := .GET, url := API_URL, body := none } ∧
      (settle (fetchVisitors s).1 c.kont (.ok R)).1.visitors = R ∧
      (settle (fetchVisitors s).1 c.kont (.ok R)).1.error = none ∧
      (settle (fetchVisitors s).1 c.kont (.ok R)).1.loading = false ∧
      (settle (fetchVisitors s).1 c.kont (.ok R)).1.visitor = s.visitor ∧
      (settle (fetchVisitors s).1 c.kont (.ok R)).1.editingId = s.editingId ∧
      (settle (fetchVisitors s).1 c.kont (.ok R)).2 = [] :=
  ⟨_, rfl, rfl, rfl, rfl, rfl, rfl, rfl, rfl⟩

/-- C10: after a failed list fetch, a rejection that carries a response of
status `s` (an HTTP status, so not 0) leaves the error "Server error (s): m",
where `m` is the response's message when there is a non-empty one and "Unknown
error" when the message is missing or empty; a rejection without a response
leaves the fixed connectivity text; and the two texts differ. -/
theorem fetch_error_distinguishes_kinds (s : State) (r : ErrResponse) (hs : 0 < r.status) :
    (∀ m : String, r.message = some m → m ≠ "" →
      (settle (fetchVisitors s).1 .fetched (.fail { response := some r })).1.error
        = some ("Server error (" ++ toString r.status ++ "): " ++ m)) ∧
    (r.message = none ∨ r.message = some "" →
      (settle (fetchVisitors s).1 .fetched (.fail { response := some r })).1.error
        = some ("Server error (" ++ toString r.status ++ "): " ++ "Unknown error")) ∧
    (settle (fetchVisitors s).1 .fetched (.fail { response := none })).1.error
      = some "Could not connect to the server. Make sure the backend API is running on http://localhost:8083" ∧
    (settle (fetchVisitors s).1 .fetched (.fail { response := some r })).1.error
      ≠ (settle (fetchVisitors s).1 .fetched (.fail { response := none })).1.error := by
  have h0 : r.status ≠ 0 := Nat.pos_iff_ne_zero.mp hs
  refine ⟨?_, ?_, rfl, ?_⟩
  · intro m hm hne
    simp [settle, errorMsg, h0, hm, hne]
  · rintro (hm | hm) <;> simp [settle, errorMsg, h0, hm]
  · simp only [settle, errorMsg, h0, ne_eq, not_false_eq_true, if_true, Option.some.injEq]
    exact serverMsg_ne_connectMsg _ _

/-- C10 at status 500 with the message "boom", and at status 404 without one. -/
theorem fetch_error_distinguishes_kinds_witness :
    0 < (500 : Nat) ∧
    ((∀ m : String, (some "boom" : Option String) = some m → m ≠ "" →
      (settle (fetchVisitors init).1 .fetched
          (.fail { response := some { status := 500, message := some "boom" } })).1.error
        = some ("Server error (" ++ toString (500 : Nat) ++ "): " ++ m)) ∧
    ((some "boom" : Option String) = none ∨ (some "boom" : Option String) = some "" →
      (settle (fetchVisitors init).1 .fetched
          (.fail { response := some { status := 500, message := some "boom" } })).1.error
        = some ("Server error (" ++ toString (500 : Nat) ++ "): " ++ "Unknown error")) ∧
    (settle (fetchVisitors init).1 .fetched (.fail { response := none })).1.error
      = some "Could not connect to the server. Make sure the backend API is running on http://localhost:8083" ∧
    (settle (fetchVisitors init).1 .fetched
        (.fail { response := some { status := 500, message := some "boom" } })).1.error
      ≠ (settle (fetchVisitors init).1 .fetched (.fail { response := none })).1.error) ∧
    (settle (fetchVisitors init).1 .fetched
        (.fail { response := some { status := 500, message := some "boom" } })).1.error
      = some "Server error (500): boom" ∧
    (settle (fetchVisitors init).1 .fetched
        (.fail { response := some { status := 404, message := none } })).1.error
      = some "Server error (404): Unknown error" :=
  ⟨by decide,
   fetch_error_distinguishes_kinds init { status := 500, message := some "boom" } (by decide),
   by decide, by decide⟩

/-! ## The form -/

/-- The properties of a draft are the six inputs, each under its name. -/
theorem Draft.entries_eq_map (d : Draft) :
    d.entries
      = [FieldName.name, .email, .phone, .purpose, .checkInTime, .checkOutTime].map
          (fun n => (n.key, d.get n)) := rfl

/-- The keys of a request body built from a draft are the six input names. -/
theorem Draft.entries_keys (d : Draft) :
    d.entries.map Prod.fst
      = ["name", "email", "phone", "purpose", "checkInTime", "checkOutTime"] := rfl

/-- Whatever the state, `handleSubmit` issues one request, and its body is the
draft. -/
theorem handleSubmit_body (s : State) :
    ∀ c ∈ (handleSubmit s).2, c.request.body = some s.visitor.entries := by
  intro c hc
  unfold handleSubmit at hc
  split at hc <;> simp at hc <;> subst hc <;> rfl

/-- C6: `handleEdit v` makes the draft the six editable fields of `v` and the
edit target `v.id`, leaves list, error and loading as they were, and issues no
request; the body of a request that a following `handleSubmit` issues is those
six fields (with `v.id` possibly only in the URL), and whatever input changes
come in between, the keys of the body are the six input names, `id` not among
them. -/
theorem handleEdit_copies_editable_fields (s : State) (v : Visitor) :
    (handleEdit s v).visitor
      = { name := v.name, email := v.email, phone := v.phone, purpose := v.purpose,
          checkInTime := v.checkInTime, checkOutTime := v.checkOutTime } ∧
    (handleEdit s v).editingId = v.id ∧
    (handleEdit s v).visitors = s.visitors ∧
    (handleEdit s v).error = s.error ∧
    (handleEdit s v).loading = s.loading ∧
    (∀ c ∈ (handleSubmit (handleEdit s v)).2,
      c.request.body
        = some [("name", v.name), ("email", v.email), ("phone", v.phone),
                ("purpose", v.purpose), ("checkInTime", v.checkInTime),
                ("checkOutTime", v.checkOutTime)]) ∧
    (∀ (changes : List (FieldName × JsVal)),
      ∀ c ∈ (handleSubmit
              (changes.foldl (fun t e => handleChange t e.1 e.2) (handleEdit s v))).2,
      ∃ b, c.request.body = some b ∧
        b.map Prod.fst = ["name", "email", "phone", "purpose", "checkInTime", "checkOutTime"] ∧
        "id" ∉ b.map Prod.fst) := by
  refine ⟨rfl, rfl, rfl, rfl, rfl, ?_, ?_⟩
  · intro c hc
    exact handleSubmit_body _ c hc
  · intro changes c hc
    refine ⟨_, handleSubmit_body _ c hc, Draft.entries_keys _, ?_⟩
    rw [Draft.entries_keys]
    decide

/-- Reading a field after writing it. -/
theorem Draft.get_set_same (d : Draft) (n : FieldName) (x : JsVal) : (d.set n x).get n = x := by
  cases n <;> rfl

/-- Reading a field after writing another one. -/
theorem Draft.get_set_other (d : Draft) (n m : FieldName) (x : JsVal) (h : m ≠ n) :
    (d.set n x).get m = d.get m := by
  cases n <;> cases m <;> first | rfl | exact absurd rfl h

/-- C7: `handleChange` with input name `n` and value `x` makes field `n` of the
draft `x`, keeps the other five fields, and leaves list, edit target, error and
loading as they were; a second change of the same field overrides the first,
and changes of two different fields give the same state in either order. -/
theorem handleChange_sets_one_field (s : State) (n : FieldName) (x : JsVal) :
    (handleChange s n x).visitor.get n = x ∧
    (∀ m : FieldName, m ≠ n → (handleChange s n x).visitor.get m = s.visitor.get m) ∧
    (handleChange s n x).visitors = s.visitors ∧
    (handleChange s n x).editingId = s.editingId ∧
    (handleChange s n x).error = s.error ∧
    (handleChange s n x).loading = s.loading ∧
    (∀ y : JsVal, handleChange (handleChange s n x) n y = handleChange s n y) ∧
    (∀ (m : FieldName) (y : JsVal), m ≠ n →
      handleChange (handleChange s n x) m y = handleChange (handleChange s m y) n x) := by
  refine ⟨Draft.get_set_same _ _ _, fun m h => Draft.get_set_other _ _ _ _ h,
    rfl, rfl, rfl, rfl, ?_, ?_⟩
  · intro y
    cases n <;> rfl
  · intro m y h
    cases n <;> cases m <;> first | rfl | exact absurd rfl h

/-! ## Failed mutations -/

/-- C8: whatever the state and the rejection, a `handleSubmit` whose request is
rejected ends in the state before the call with only the error replaced, by
the update text when the request was the PUT and by the add text when it was the
POST, and a `handleDelete` whose request is rejected ends in the state before
the call with only the error replaced by the delete text; neither failure
callback issues a request. -/
theorem failed_mutation_only_sets_error (s : State) (err : AxiosError) (id : JsVal) :
    (∃ c : Call,
      (handleSubmit s).2 = [c] ∧
      (c.request.method = .PUT ∨ c.request.method = .POST) ∧
      (c.request.method = .PUT →
        settle (handleSubmit s).1 c.kont (.fail err)
          = ({ s with error := some "Failed to update visitor. Please try again." }, [])) ∧
      (c.request.method = .POST →
        settle (handleSubmit s).1 c.kont (.fail err)
          = ({ s with error := some "Failed to add visitor. Please try again." }, []))) ∧
    (∃ c : Call,
      (handleDelete s id).2 = [c] ∧
      c.request.method = .DELETE ∧
      settle (handleDelete s id).1 c.kont (.fail err)
        = ({ s with error := some "Failed to delete visitor. Please try again." }, [])) := by
  refine ⟨?_, _, rfl, rfl, rfl⟩
  unfold handleSubmit
  split
  · exact ⟨_, rfl, Or.inl rfl, fun _ => rfl, fun h => (by cases h)⟩
  · exact ⟨_, rfl, Or.inr rfl, fun h => (by cases h), fun _ => rfl⟩

/-! ## Submit -/

/-- The test of line 54 is JavaScript truthiness: `handleSubmit` clears the
error and issues the PUT to `API_URL/editingId` when `editingId` is truthy, and
the POST to `API_URL` when it is falsy; the body is the draft either way. -/
theorem handleSubmit_by_truthiness (s : State) :
    (s.editingId.truthy = true →
      handleSubmit s
        = ({ s with error := none },
           [{ request := { method := .PUT, url := API_URL ++ "/" ++ s.editingId.toStr,
                           body := some s.visitor.entries },
              kont := .updated }])) ∧
    (s.editingId.truthy = false →
      handleSubmit s
        = ({ s with error := none },
           [{ request := { method := .POST, url := API_URL, body := some s.visitor.entries },
              kont := .created }])) := by
  constructor <;> intro h <;> simp [handleSubmit, h]

/-- C2, evaluated where the code departs from it: after the list was loaded with
a record of id 0 and `handleEdit` made that id the edit target (so the target is
set: it is not null), `handleSubmit` sends a POST to the collection URL, not a
PUT to `API_URL/0`; the same happens for a record whose id is the empty
string. -/
theorem handleSubmit_falsy_target_issues_create :
    (run start [.mount, .response 0 (.ok [visitorZero]), .edit visitorZero]).state.editingId
      = .num 0 ∧
    JsVal.num 0 ≠ JsVal.null ∧
    (run start [.mount, .response 0 (.ok [visitorZero]), .edit visitorZero, .submit]).sent
      = [{ method := .GET, url := API_URL, body := none },
         { method := .POST, url := API_URL,
           body := some [("name", .str "Z"), ("email", .str "z@example.org"),
                         ("phone", .str "555"), ("purpose", .str "audit"),
                         ("checkInTime", .str ""), ("checkOutTime", .str "")] }] ∧
    (run start [.mount, .response 0 (.ok [visitorBlank]), .edit visitorBlank]).state.editingId
      = .str "" ∧
    JsVal.str "" ≠ JsVal.null ∧
    (run start [.mount, .response 0 (.ok [visitorBlank]), .edit visitorBlank, .submit]).sent
      = [{ method := .GET, url := API_URL, body := none },
         { method := .POST, url := API_URL,
           body := some [("name", .str "B"), ("email", .str "b@example.org"),
                         ("phone", .str "556"), ("purpose", .str "visit"),
                         ("checkInTime", .str ""), ("checkOutTime", .str "")] }] := by
  decide

/-- When the edit target is null or truthy, a `handleSubmit` whose request is
fulfilled resets the draft to the all-empty record, makes the edit target null,
keeps the list for the moment and issues exactly the GET of `fetchVisitors`;
once that GET is fulfilled with `R`, the list is `R`. -/
theorem submit_success_resets_form (s : State) (data R : List Visitor)
    (h : s.editingId = .null ∨ s.editingId.truthy = true) :
    ∃ c : Call,
      (handleSubmit s).2 = [c] ∧
      (settle (handleSubmit s).1 c.kont (.ok data)).1.visitor = emptyDraft ∧
      (settle (handleSubmit s).1 c.kont (.ok data)).1.editingId = .null ∧
      (settle (handleSubmit s).1 c.kont (.ok data)).1.visitors = s.visitors ∧
      (settle (handleSubmit s).1 c.kont (.ok data)).2
        = [{ request := { method := .GET, url := API_URL, body := none }, kont := .fetched }] ∧
      (settle (settle (handleSubmit s).1 c.kont (.ok data)).1 .fetched (.ok R)).1.visitors = R := by
  rcases h with h | h
  · have ht : s.editingId.truthy = false := by rw [h]; rfl
    rw [(handleSubmit_by_truthiness s).2 ht]
    exact ⟨_, rfl, rfl, h, rfl, rfl, rfl⟩
  · rw [(handleSubmit_by_truthiness s).1 h]
    exact ⟨_, rfl, rfl, rfl, rfl, rfl, rfl⟩

/-- The theorem `submit_success_resets_form` at the edit target 1 of the
specification's example record. -/
theorem submit_success_resets_form_witness :
    ((handleEdit init visitorA).editingId = .null ∨
      (handleEdit init visitorA).editingId.truthy = true) ∧
    ∃ c : Call,
      (handleSubmit (handleEdit init visitorA)).2 = [c] ∧
      (settle (handleSubmit (handleEdit init visitorA)).1 c.kont (.ok [])).1.visitor
        = emptyDraft ∧
      (settle (handleSubmit (handleEdit init visitorA)).1 c.kont (.ok [])).1.editingId = .null ∧
      (settle (handleSubmit (handleEdit init visitorA)).1 c.kont (.ok [])).1.visitors
        = (handleEdit init visitorA).visitors ∧
      (settle (handleSubmit (handleEdit init visitorA)).1 c.kont (.ok [])).2
        = [{ request := { method := .GET, url := API_URL, body := none }, kont := .fetched }] ∧
      (settle (settle (handleSubmit (handleEdit init visitorA)).1 c.kont (.ok [])).1 .fetched
          (.ok [visitorA])).1.visitors = [visitorA] :=
  ⟨Or.inr (by decide),
   submit_success_resets_form (handleEdit init visitorA) [] [visitorA] (Or.inr (by decide))⟩

/-- C3, evaluated where the code departs from it: with the record of id 0 as
edit target, the submit's request (the POST) is fulfilled, the draft is reset
and the reload is in flight, yet the edit target is still 0, not null; it is
still 0 after the reload has been fulfilled. -/
theorem submit_success_keeps_falsy_target :
    (run start [.mount, .response 0 (.ok [visitorZero]), .edit visitorZero, .submit,
        .response 0 (.ok [])]).state.visitor = emptyDraft ∧
    (run start [.mount, .response 0 (.ok [visitorZero]), .edit visitorZero, .submit,
        .response 0 (.ok [])]).pending
      = [{ request := { method := .GET, url := API_URL, body := none }, kont := .fetched }] ∧
    (run start [.mount, .response 0 (.ok [visitorZero]), .edit visitorZero, .submit,
        .response 0 (.ok [])]).state.editingId = .num 0 ∧
    (run start [.mount, .response 0 (.ok [visitorZero]), .edit visitorZero, .submit,
        .response 0 (.ok [])]).state.editingId ≠ .null ∧
    (run start [.mount, .response 0 (.ok [visitorZero]), .edit visitorZero, .submit,
        .response 0 (.ok []), .response 0 (.ok [visitorZero])]).state.editingId = .num 0 := by
  decide

/-! ## Edit mode -/

/-- In any state of the component, with any calls in flight, an event changes
the edit target only if it is a `handleEdit` or the fulfilment of an update
request: input changes, mounting, submitting, deleting, every rejection, the
fulfilment of a list fetch, of a create and of a delete (also of the record
being edited) leave it as it was. -/
theorem editingId_frame (σ : System) (e : Event)
    (hedit : ∀ v, e ≠ .edit v)
    (hupd : ∀ i data c, e = .response i (.ok data) → σ.pending.get? i = some c →
      c.kont ≠ .updated) :
    (step σ e).state.editingId = σ.state.editingId := by
  cases e with
  | mount => rfl
  | change n x => rfl
  | submit =>
    show (handleSubmit σ.state).1.editingId = _
    unfold handleSubmit
    split <;> rfl
  | edit v => exact absurd rfl (hedit v)
  | delete id => rfl
  | response i o =>
    simp only [step]
    cases hp : σ.pending.get? i with
    | none => rfl
    | some c =>
      simp only [System.issue]
      cases o with
      | fail err => cases hk : c.kont <;> rfl
      | ok data =>
        cases hk : c.kont with
        | updated => exact absurd hk (hupd i data c rfl hp)
        | fetched => rfl
        | created => rfl
        | deleted vs id => rfl

/-- The hypotheses of `editingId_frame` at the fulfilled delete of the record
being edited. -/
theorem editingId_frame_witness :
    (step (run start [.mount, .response 0 (.ok [visitorA]), .edit visitorA, .delete (.num 1)])
        (.response 0 (.ok []))).state.editingId
      = (run start [.mount, .response 0 (.ok [visitorA]), .edit visitorA,
          .delete (.num 1)]).state.editingId ∧
    (step (run start [.mount, .response 0 (.ok [visitorA]), .edit visitorA, .delete (.num 1)])
        (.response 0 (.ok []))).state.visitors = [] ∧
    (step (run start [.mount, .response 0 (.ok [visitorA]), .edit visitorA, .delete (.num 1)])
        (.response 0 (.ok []))).state.editingId = .num 1 :=
  ⟨editingId_frame _ _ (fun v h => by cases h)
      (fun i data c h hp => by
        cases h
        have hc : c = { request := { method := .DELETE, url := API_URL ++ "/" ++ (JsVal.num 1).toStr,
                                     body := none },
                        kont := .deleted [visitorA] (.num 1) } :=
          (Option.some.inj hp).symm
        rw [hc]
        intro hk
        cases hk),
   by decide, by decide⟩

/-- C9, evaluated where the code departs from it: the list is loaded with the
record of id 0, `handleEdit` makes 0 the edit target, the form is submitted and
the submit's request is fulfilled; no `handleEdit` follows, yet the edit target
is 0 and not null, so the successful submit did not leave the editing state. -/
theorem successful_submit_stays_in_edit_mode :
    (run start [.mount, .response 0 (.ok [visitorZero])]).state.editingId = .null ∧
    (run start [.mount, .response 0 (.ok [visitorZero]), .edit visitorZero]).state.editingId
      = visitorZero.id ∧
    (run start [.mount, .response 0 (.ok [visitorZero]), .edit visitorZero, .submit]).pending.map
        Call.kont = [.created] ∧
    (run start [.mount, .response 0 (.ok [visitorZero]), .edit visitorZero, .submit,
        .response 0 (.ok [])]).state.editingId ≠ .null ∧
    (run start [.mount, .response 0 (.ok [visitorZero]), .edit visitorZero, .submit,
        .response 0 (.ok [])]).state.editingId = .num 0 := by
  decide
end VisitorEntry
